import Mathlib

/-
Shallow embedding of the transcript-validation core of `src/main.py`
(Validador de Transcripciones DOCX vs Excel).

Modelling decisions, documented once here:

* The external document parser (`python-docx`, used via `doc_from_bytes`) and
  the external spreadsheet reader (`pandas`, used via `read_excel_questions`)
  are collaborators outside the repository.  A parsed document is modelled as
  a list of paragraphs, each with its raw text and its ordered runs; the
  reference spreadsheet is modelled by the list of strings its column C
  parses to.  All validation logic below is translated from `src/main.py`.
* Python strings are modelled as Lean `String` / `List Char`.  `str.strip`
  is modelled with the ASCII whitespace set Python strips; `str.lower` with a
  character-wise ASCII lowercase; the regex word-character class `\w` with
  ASCII alphanumerics plus underscore.  (Python additionally handles some
  exotic Unicode case folds and whitespace; no rule of the engine depends on
  those.)
* Each regular expression of the source is compiled by hand into a decidable
  matcher whose semantics (anchors, word boundaries, greedy classes,
  alternation with backtracking, `re.IGNORECASE`) follow Python's `re` on
  the pattern in question; each matcher is documented at its definition.
* `run.bold` is a Python truthy test (`None`/`False` both falsy), modelled by
  a single `Bool`.  `run.font.size` truthiness (line 143) plus the `tam`
  truthiness on line 147 together mean a 0-point size never fires; the model
  keeps the size as `Option ℚ` and reproduces both truthiness tests.
-/

namespace Transcripciones

/-! ### String utilities modelling the Python primitives used by main.py -/

/-- Characters removed by Python `str.strip()` (ASCII whitespace; also the
set matched by the regex class `\s` for ASCII input). -/
def esEspacioPy (c : Char) : Bool :=
  c = ' ' || c = '\t' || c = '\n' || c = '\r' || c = '\x0b' || c = '\x0c'

/-- Python `str.strip()` on a character list. -/
def recorta (s : List Char) : List Char :=
  ((s.dropWhile esEspacioPy).reverse.dropWhile esEspacioPy).reverse

/-- Python `str.strip()` on a string. -/
def recortaS (s : String) : String := String.mk (recorta s.toList)

/-- Python `str.lower()` (ASCII letters). -/
def minusculas (s : String) : String := String.mk (s.toList.map Char.toLower)

/-- Exact prefix test on character lists. -/
def prefijo : List Char → List Char → Bool
  | [], _ => true
  | _ :: _, [] => false
  | a :: as, b :: bs => a = b && prefijo as bs

/-- Python substring containment `needle in haystack`. -/
def subcadena (n h : List Char) : Bool :=
  prefijo n h ||
    match h with
    | [] => false
    | _ :: hs => subcadena n hs

/-- Python `needle in haystack` on strings. -/
def subcadenaS (n h : String) : Bool := subcadena n.toList h.toList

/-- Python `str.startswith`. -/
def empiezaCon (s pre : String) : Bool := prefijo pre.toList s.toList

/-- Python `str.endswith`. -/
def terminaEn (s suf : String) : Bool := prefijo suf.toList.reverse s.toList.reverse

/-- ASCII letter (the class `[a-z]` under `re.IGNORECASE`, and `[A-Z]`∪`[a-z]`). -/
def esLetraAscii (c : Char) : Bool := ('a' ≤ c && c ≤ 'z') || ('A' ≤ c && c ≤ 'Z')

/-- ASCII uppercase letter (the regex class `[A-Z]`). -/
def esMayuscula (c : Char) : Bool := 'A' ≤ c && c ≤ 'Z'

/-- Regex word character `\w` (ASCII fragment). -/
def esCaracterPalabra (c : Char) : Bool := esLetraAscii c || c.isDigit || c = '_'

/-! ### Data model (spec §3): runs, paragraphs, error records, results -/

/-- One formatting run of a paragraph: fragment text, truthy bold flag,
optional font name (`run.font.name`) and optional size in points
(`run.font.size.pt`, `none` when the size is unset). -/
structure Run where
  text : String
  bold : Bool
  fontName : Option String
  fontSizePt : Option ℚ
deriving DecidableEq, Repr

/-- One paragraph of a parsed document: raw text (`para.text`) and its runs. -/
structure Paragraph where
  text : String
  runs : List Run
deriving DecidableEq, Repr

/-- One validation error, as the dict `{"linea": l, "tipo_error": t,
"descripcion": d}` built on line 170 of main.py. -/
structure ErrorRecord where
  linea : Nat
  tipo_error : String
  descripcion : String
deriving DecidableEq, Repr

/-- Per-document analysis result (line 175 of main.py); `resumen` is an
insertion-ordered association list modelling the Python dict. -/
structure AnalysisResult where
  archivo : String
  resumen : List (String × Nat)
  errores : List ErrorRecord
deriving DecidableEq, Repr

/-! ### Configuration constants (main.py lines 18, 50-63) -/

def MAX_DOCX : Nat := 10

def ETIQUETAS_VALIDAS : List String :=
  ["ENTREVISTADOR", "ENTREVISTADORA", "ENTREVISTADO", "ENTREVISTADA"]

/-- Shapes of the forbidden-label regular expressions of
`ETIQUETAS_INVALIDAS_PATRONES`: a whole word matched case-insensitively
(`\bLit\b`), a word starting with a literal followed by letters
(`\bLit[a-z]*\b` under `re.IGNORECASE`), and a run of three or more `X`
(`\bX\x7b3,\x7d\b` under `re.IGNORECASE`). -/
inductive Patron where
  | palabra (lit : String)
  | palabraStar (lit : String)
  | xTriple
deriving DecidableEq, Repr

/-- Case-insensitive consumption of a literal: returns the rest of the input
when every character of `lit` matches the input case-insensitively. -/
def consumeCI : List Char → List Char → Option (List Char)
  | [], s => some s
  | _ :: _, [] => none
  | a :: as, b :: bs => if a.toLower = b.toLower then consumeCI as bs else none

/-- Greedy `[a-z]*` under `re.IGNORECASE`: drop leading ASCII letters. -/
def saltaLetras : List Char → List Char
  | [] => []
  | c :: resto => if esLetraAscii c then saltaLetras resto else c :: resto

/-- Word boundary `\b` after a word character: end of input or a non-word
character next. -/
def fronteraDespues : List Char → Bool
  | [] => true
  | c :: _ => !esCaracterPalabra c

/-- Word boundary `\b` before a word character: start of input or a non-word
character just before. -/
def fronteraAntes : Option Char → Bool
  | none => true
  | some c => !esCaracterPalabra c

/-- Greedy run of `x`/`X` (the `X\x7b3,\x7d` part under `re.IGNORECASE`):
its length and the remaining input. -/
def tomaX : List Char → Nat × List Char
  | [] => (0, [])
  | c :: resto =>
    if c.toLower = 'x' then
      let nr := tomaX resto
      (nr.1 + 1, nr.2)
    else (0, c :: resto)

/-- Does the pattern match at the start of the input?  Every pattern begins
with a word character, ends the literal part in a word character, and its
trailing classes only consume word characters, so backtracking inside the
greedy classes can never create the closing `\b`; the greedy-without-
backtracking reading used here is therefore exact. -/
def coincideEn : Patron → List Char → Bool
  | .palabra lit, s =>
    match consumeCI lit.toList s with
    | some resto => fronteraDespues resto
    | none => false
  | .palabraStar lit, s =>
    match consumeCI lit.toList s with
    | some resto => fronteraDespues (saltaLetras resto)
    | none => false
  | .xTriple, s =>
    let nr := tomaX s
    3 ≤ nr.1 && fronteraDespues nr.2

/-- Python `re.search(patron, texto, re.IGNORECASE)`: try the pattern at
every position whose preceding character allows an opening `\b`. -/
def buscaPatron (p : Patron) : Option Char → List Char → Bool
  | prev, [] => fronteraAntes prev && coincideEn p []
  | prev, c :: resto =>
    (fronteraAntes prev && coincideEn p (c :: resto)) || buscaPatron p (some c) resto

/-- The eleven forbidden patterns (main.py lines 51-63), each with the source
text of its regular expression (used in the error description). -/
def ETIQUETAS_INVALIDAS_PATRONES : List (Patron × String) :=
  [ (.palabra "Usuario", "\\bUsuario\\b"),
    (.xTriple, "\\bX\x7b3,\x7d\\b"),
    (.palabra "Xxxxxxx", "\\bXxxxxxx\\b"),
    (.palabraStar "Entrevistador", "\\bEntrevistador[a-z]*\\b"),
    (.palabraStar "Entrevistado", "\\bEntrevistado[a-z]*\\b"),
    (.palabraStar "entrevistador", "\\bentrevistador[a-z]*\\b"),
    (.palabraStar "entrevistado", "\\bentrevistado[a-z]*\\b"),
    (.palabraStar "Moderador", "\\bModerador[a-z]*\\b"),
    (.palabraStar "moderador", "\\bmoderador[a-z]*\\b"),
    (.palabraStar "Speaker", "\\bSpeaker[a-z]*\\b"),
    (.palabraStar "SPEAKER", "\\bSPEAKER[a-z]*\\b") ]

/-! ### Per-paragraph check bodies of the five paragraph validators -/

/-- Loop skeleton shared by the five validators that emit at most one error
per paragraph: `enumerate(doc.paragraphs)` with the loop body `revisa`,
emitting line number `i + 1`. -/
def porParrafo (revisa : Paragraph → Option (String × String)) :
    Nat → List Paragraph → List ErrorRecord
  | _, [] => []
  | i, p :: resto =>
    (match revisa p with
     | some td => [⟨i + 1, td.1, td.2⟩]
     | none => []) ++ porParrafo revisa (i + 1) resto

/-- Python `re.match(r"^([A-Z]+):", texto)` (main.py line 98): the captured
group when the text starts with one or more uppercase letters followed by a
colon. -/
def etiquetaMayuscula (s : String) : Option String :=
  let may := s.toList.takeWhile esMayuscula
  match s.toList.dropWhile esMayuscula with
  | ':' :: _ => if may.isEmpty then none else some (String.mk may)
  | _ => none

/-- Loop body of `validar_etiquetas_docx` (main.py lines 96-106). -/
def revisaEtiqueta (p : Paragraph) : Option (String × String) :=
  let texto := recortaS p.text
  match etiquetaMayuscula texto with
  | none => none
  | some etiqueta =>
    if etiqueta ∉ ETIQUETAS_VALIDAS then
      some ("Etiqueta inválida", "Etiqueta \x27" ++ etiqueta ++ "\x27 no es válida.")
    else if etiqueta ∈ ["ENTREVISTADOR", "ENTREVISTADORA"] then
      if p.runs.any (fun run => run.bold && subcadenaS etiqueta run.text) then none
      else some ("Encabezado sin negrita",
        "Etiqueta \x27" ++ etiqueta ++ "\x27 debería estar en negrita.")
    else none

/-- Loop body of `validar_negrita_entrevistador` (main.py lines 78-91); the
inner run loop with break is the `all` below. -/
def revisaNegrita (p : Paragraph) : Option (String × String) :=
  let texto := recortaS p.text
  if empiezaCon texto "ENTREVISTADOR:" || empiezaCon texto "ENTREVISTADORA:" then
    if p.runs.all (fun run => (recortaS run.text).isEmpty || run.bold) then none
    else some ("Formato en negrita",
      "Texto de " ++ String.mk (texto.toList.takeWhile (fun c => c != ':')) ++
        " no está completamente en negrita.")
  else none

/-- Python truthy test `fuente and fuente.lower() != "arial"` (line 144). -/
def esFuenteMala : Option String → Bool
  | none => false
  | some f => !f.isEmpty && minusculas f != "arial"

/-- Python truthy test `tam and tam != 12` (line 147), with `tam = None`
also when `run.font.size` itself is falsy (line 143). -/
def esTamMalo : Option ℚ → Bool
  | none => false
  | some t => t != 0 && t != 12

def descFuente (f : Option String) : String :=
  "\x27" ++ f.getD "" ++ "\x27 en vez de Arial"

def descTam (t : Option ℚ) : String :=
  toString (t.getD 0) ++ "pt en vez de 12pt"

/-- Inner run loop of `validar_fuente_tamano` (main.py lines 141-149): the
first run violating the font check, else the size check, wins and breaks. -/
def revisarRuns : List Run → Option (String × String)
  | [] => none
  | run :: resto =>
    if esFuenteMala run.fontName then some ("Fuente incorrecta", descFuente run.fontName)
    else if esTamMalo run.fontSizePt then some ("Tamaño incorrecto", descTam run.fontSizePt)
    else revisarRuns resto

/-- Loop body of `validar_fuente_tamano`. -/
def revisaFuente (p : Paragraph) : Option (String × String) := revisarRuns p.runs

/-- Specification-side reading of the font/size rule ("only the first
violation per paragraph is reported"): the first run violating either check
determines the single reported error.  Proved equal to the loop
`revisarRuns` below. -/
def primeraViolacionSpec (runs : List Run) : Option (String × String) :=
  (runs.find? (fun run => esFuenteMala run.fontName || esTamMalo run.fontSizePt)).map
    (fun run =>
      if esFuenteMala run.fontName then ("Fuente incorrecta", descFuente run.fontName)
      else ("Tamaño incorrecto", descTam run.fontSizePt))

/-- Exact (case-sensitive) consumption of a literal prefix. -/
def quitaPrefijo : List Char → List Char → Option (List Char)
  | [], s => some s
  | _ :: _, [] => none
  | a :: as, b :: bs => if a = b then quitaPrefijo as bs else none

/-- Python `re.match(r"^(ENTREVISTAD[OA]|ENTREVISTADOR[OA]):\s*$", t)`
(main.py line 155).  The alternation expands to the four literals below
(note: `ENTREVISTADOR` itself is not among them, `ENTREVISTADORO` is). -/
def intervencionVaciaRe (t : List Char) : Bool :=
  [ "ENTREVISTADO", "ENTREVISTADA", "ENTREVISTADORO", "ENTREVISTADORA" ].any
    (fun lit =>
      match quitaPrefijo (lit.toList ++ [':']) t with
      | some resto => resto.all esEspacioPy
      | none => false)

/-- Loop body of `validar_intervencion_vacia` (main.py lines 154-156). -/
def revisaIntervencion (p : Paragraph) : Option (String × String) :=
  if intervencionVaciaRe (recortaS p.text).toList then
    some ("Intervención vacía tras etiqueta", "Debe ir junto al texto, sin salto de línea")
  else none

/-- Loop body of `detectar_etiquetas_invalidas` (main.py lines 111-116): the
first matching pattern wins and breaks. -/
def revisaPatrones (p : Paragraph) : Option (String × String) :=
  match ETIQUETAS_INVALIDAS_PATRONES.find?
      (fun pr => buscaPatron pr.1 none (recortaS p.text).toList) with
  | some pr => some ("Etiqueta inválida", "Se encontró coincidencia con patrón: " ++ pr.2)
  | none => none

/-! ### The six validators and the question extractor (main.py lines 76-157) -/

def validar_negrita_entrevistador (doc : List Paragraph) : List ErrorRecord :=
  porParrafo revisaNegrita 0 doc

def validar_etiquetas_docx (doc : List Paragraph) : List ErrorRecord :=
  porParrafo revisaEtiqueta 0 doc

def detectar_etiquetas_invalidas (doc : List Paragraph) : List ErrorRecord :=
  porParrafo revisaPatrones 0 doc

def validar_fuente_tamano (doc : List Paragraph) : List ErrorRecord :=
  porParrafo revisaFuente 0 doc

def validar_intervencion_vacia (doc : List Paragraph) : List ErrorRecord :=
  porParrafo revisaIntervencion 0 doc

/-- Python `re.findall(r"[^?\n]+\?", texto)` (main.py lines 121-124): the
accumulator holds (reversed) the current run of characters other than `?`
and newline; a question mark closes a non-empty run into one match. -/
def hallaPreguntas (acc : List Char) : List Char → List (List Char)
  | [] => []
  | c :: resto =>
    if c = '?' then
      if acc.isEmpty then hallaPreguntas [] resto
      else (acc.reverse ++ ['?']) :: hallaPreguntas [] resto
    else if c = '\n' then hallaPreguntas [] resto
    else hallaPreguntas (c :: acc) resto

/-- Matches of the question regex on one paragraph text, stripped, keeping
the non-empty ones (main.py lines 124-128). -/
def preguntasDeTexto (s : String) : List String :=
  (hallaPreguntas [] s.toList).filterMap (fun q =>
    let limpia := recorta q
    if limpia.isEmpty then none else some (String.mk limpia))

def extraerAux : Nat → List Paragraph → List (Nat × String)
  | _, [] => []
  | i, p :: resto =>
    (preguntasDeTexto p.text).map (fun q => (i + 1, q)) ++ extraerAux (i + 1) resto

/-- Function `extraer_preguntas_docx` (main.py lines 119-129). -/
def extraer_preguntas_docx (doc : List Paragraph) : List (Nat × String) :=
  extraerAux 0 doc

/-- Function `comparar_preguntas` (main.py lines 131-136). -/
def comparar_preguntas (preguntas_docx : List (Nat × String)) (preguntas_ref : List String) :
    List ErrorRecord :=
  preguntas_docx.filterMap (fun lq =>
    if lq.2 ∈ preguntas_ref then none
    else some ⟨lq.1, "Pregunta no coincide",
      "\x27" ++ lq.2 ++ "\x27 no está en la matriz de referencia"⟩)

/-! ### Document analyzer (main.py lines 159-175) -/

/-- One step of the summary dict update `resumen[t] = resumen.get(t, 0) + 1`
on an insertion-ordered association list. -/
def agrega : List (String × Nat) → String → List (String × Nat)
  | [], k => [(k, 1)]
  | (k', n) :: resto, k =>
    if k' = k then (k', n + 1) :: resto else (k', n) :: agrega resto k

/-- The summary loop of main.py lines 171-173. -/
def resumenDe (errores : List ErrorRecord) : List (String × Nat) :=
  errores.foldl (fun acc e => agrega acc e.tipo_error) []

/-- The concatenated error list of `analizar_un_docx` (main.py lines
162-168), in the fixed validator order. -/
def erroresDe (doc : List Paragraph) (preguntas_ref : List String) : List ErrorRecord :=
  comparar_preguntas (extraer_preguntas_docx doc) preguntas_ref ++
  validar_etiquetas_docx doc ++
  validar_negrita_entrevistador doc ++
  validar_fuente_tamano doc ++
  validar_intervencion_vacia doc ++
  detectar_etiquetas_invalidas doc

/-- Function `analizar_un_docx` (main.py lines 159-175).  The document argument is
the parsed document (`doc_from_bytes` of the raw bytes, performed by the
external parser). -/
def analizar_un_docx (nombre : String) (doc : List Paragraph) (preguntas_ref : List String) :
    AnalysisResult :=
  { archivo := nombre,
    resumen := resumenDe (erroresDe doc preguntas_ref),
    errores := erroresDe doc preguntas_ref }

/-- Python dict lookup on the insertion-ordered association list that models
`resumen`. -/
def buscar (k : String) : List (String × Nat) → Option Nat
  | [] => none
  | kn :: resto => if kn.1 = k then some kn.2 else buscar k resto

/-- Number of error records of a given kind. -/
def cuentaTipo (errores : List ErrorRecord) (k : String) : Nat :=
  (errores.filter (fun e => decide (e.tipo_error = k))).length

/-! ### Batch endpoint (main.py lines 188-212), transport glue abstracted -/

/-- One uploaded file: its name and its parsed content (the external parse
of its bytes). -/
structure ArchivoSubido where
  filename : String
  doc : List Paragraph
deriving DecidableEq, Repr

/-- Outcome of the `/analyze` endpoint: the 400 `JSONResponse` rejections or
the `AnalyzeResponse` success payload. -/
inductive RespuestaAnalyze where
  | rechazo (status : Nat) (ok : Bool) (message : String)
  | exito (ok : Bool) (total_archivos : Nat) (resultados : List AnalysisResult)
deriving DecidableEq, Repr

/-- The filter of main.py line 196: `f.filename.lower().endswith(".docx")`. -/
def esNombreDocx (f : ArchivoSubido) : Bool := terminaEn (minusculas f.filename) ".docx"

/-- Core of `analyze_endpoint` (main.py lines 188-212).  The token check is
transport glue; `preguntas_excel_datos` stands for the value
`read_excel_questions` would produce from the spreadsheet bytes — the
rejection theorems below show the result does not depend on it, which is the
embedded form of "the spreadsheet is never read". -/
def analyze_endpoint (documentos : List ArchivoSubido) (preguntas_excel_nombre : String)
    (preguntas_excel_datos : List String) : RespuestaAnalyze :=
  let docx_files := documentos.filter esNombreDocx
  if docx_files.length = 0 then
    RespuestaAnalyze.rechazo 400 false "Debes adjuntar al menos un .docx"
  else
    let docx_files := if MAX_DOCX < docx_files.length then docx_files.take MAX_DOCX else docx_files
    if !(terminaEn (minusculas preguntas_excel_nombre) ".xlsx") then
      RespuestaAnalyze.rechazo 400 false "Debes adjuntar un .xlsx de preguntas"
    else
      let preguntas_ref := preguntas_excel_datos
      let resultados := docx_files.map (fun f => analizar_un_docx f.filename f.doc preguntas_ref)
      RespuestaAnalyze.exito true resultados.length resultados

/-! ### Helper lemmas -/

/-- Every error emitted by a per-paragraph validator carries a line number
inside the range of the paragraphs it scanned. -/
theorem porParrafo_linea_acotada (revisa : Paragraph → Option (String × String))
    (l : List Paragraph) :
    ∀ (i : Nat) (e : ErrorRecord), e ∈ porParrafo revisa i l →
      i + 1 ≤ e.linea ∧ e.linea ≤ i + l.length := by
  induction l with
  | nil => intro i e h; simp [porParrafo] at h
  | cons p resto ih =>
    intro i e h
    simp only [porParrafo, List.mem_append] at h
    rcases h with h | h
    · rcases hr : revisa p with _ | td <;> rw [hr] at h
      · simp at h
      · simp at h
        subst h
        simp only [List.length_cons]
        omega
    · have h2 := ih (i + 1) e h
      simp only [List.length_cons]
      omega

/-- The errors of a per-paragraph validator carrying the line number of the
`j`-th scanned paragraph are exactly what the loop body emits for it. -/
theorem porParrafo_filtra_linea (revisa : Paragraph → Option (String × String))
    (l : List Paragraph) :
    ∀ (i j : Nat) (p : Paragraph), l.get? j = some p →
      (porParrafo revisa i l).filter (fun e => decide (e.linea = i + j + 1)) =
        (match revisa p with
         | some td => [⟨i + j + 1, td.1, td.2⟩]
         | none => []) := by
  induction l with
  | nil => intro i j p h; simp at h
  | cons q resto ih =>
    intro i j p h
    cases j with
    | zero =>
      rw [List.get?_cons_zero] at h
      injection h with h
      subst h
      simp only [porParrafo, List.filter_append]
      have htail : (porParrafo revisa (i + 1) resto).filter
          (fun e => decide (e.linea = i + 0 + 1)) = [] := by
        rw [List.filter_eq_nil_iff]
        intro e he
        have := porParrafo_linea_acotada revisa resto (i + 1) e he
        simp only [decide_eq_true_eq]
        omega
      rw [htail]
      rcases hr : revisa q with _ | td <;> simp
    | succ j' =>
      rw [List.get?_cons_succ] at h
      simp only [porParrafo, List.filter_append]
      have hhead : ((match revisa q with
          | some td => [(⟨i + 1, td.1, td.2⟩ : ErrorRecord)]
          | none => []) : List ErrorRecord).filter
            (fun e => decide (e.linea = i + (j' + 1) + 1)) = [] := by
        rcases hr : revisa q with _ | td <;> simp
      rw [hhead]
      have := ih (i + 1) j' p h
      have harith : i + 1 + j' + 1 = i + (j' + 1) + 1 := by omega
      rw [harith] at this
      rw [this]
      simp

/-- Consuming a case-insensitive literal that exactly matches `s` consumes
exactly the `s`-part of `s ++ r`. -/
theorem consumeCI_exacto : ∀ (lit s : List Char), consumeCI lit s = some [] →
    ∀ r, consumeCI lit (s ++ r) = some r := by
  intro lit
  induction lit with
  | nil =>
    intro s h r
    simp only [consumeCI, Option.some.injEq] at h
    subst h
    simp [consumeCI]
  | cons a as ih =>
    intro s h r
    cases s with
    | nil => simp [consumeCI] at h
    | cons b bs =>
      rw [List.cons_append]
      simp only [consumeCI] at h ⊢
      split at h
      · rename_i hc
        rw [if_pos hc]
        exact ih bs h r
      · exact absurd h (by simp)

/-- A pattern matching at the current position makes the search succeed. -/
theorem buscaPatron_aqui (p : Patron) (prev : Option Char) (s : List Char)
    (h1 : fronteraAntes prev = true) (h2 : coincideEn p s = true) :
    buscaPatron p prev s = true := by
  cases s with
  | nil => simp [buscaPatron, h1, h2]
  | cons c resto => simp [buscaPatron, h1, h2]

/-- If some element of the list satisfies the predicate, `find?` succeeds. -/
theorem find?_coge_alguno {α : Type} (p : α → Bool) :
    ∀ (l : List α) (x : α), x ∈ l → p x = true → (l.find? p).isSome = true := by
  intro l
  induction l with
  | nil => intro x hx; simp at hx
  | cons a resto ih =>
    intro x hx hp
    by_cases ha : p a = true
    · simp [List.find?_cons_of_pos _ ha]
    · rw [List.find?_cons_of_neg _ (by simpa using ha)]
      rcases List.mem_cons.mp hx with rfl | hx'
      · exact absurd hp ha
      · exact ih x hx' hp

/-- The greedy letter class does not move past a colon. -/
theorem saltaLetras_dos_puntos (r : List Char) : saltaLetras (':' :: r) = ':' :: r := by
  have : esLetraAscii ':' = false := by decide
  simp [saltaLetras, this]

/-- The loop of `validar_fuente_tamano` computes the first violating run. -/
theorem revisarRuns_primera (runs : List Run) :
    revisarRuns runs = primeraViolacionSpec runs := by
  induction runs with
  | nil => rfl
  | cons run resto ih =>
    by_cases hf : esFuenteMala run.fontName = true
    · have hpos : List.find? (fun run => esFuenteMala run.fontName || esTamMalo run.fontSizePt)
          (run :: resto) = some run := List.find?_cons_of_pos _ (by simp [hf])
      simp [revisarRuns, primeraViolacionSpec, hpos, hf]
    · by_cases ht : esTamMalo run.fontSizePt = true
      · have hpos : List.find? (fun run => esFuenteMala run.fontName || esTamMalo run.fontSizePt)
            (run :: resto) = some run := List.find?_cons_of_pos _ (by simp [ht])
        simp [revisarRuns, primeraViolacionSpec, hpos, hf, ht]
      · have hneg : List.find? (fun run => esFuenteMala run.fontName || esTamMalo run.fontSizePt)
            (run :: resto) =
            List.find? (fun run => esFuenteMala run.fontName || esTamMalo run.fontSizePt) resto :=
          List.find?_cons_of_neg _ (by simp [hf, ht])
        rw [show revisarRuns (run :: resto) = revisarRuns resto by
            simp [revisarRuns, hf, ht]]
        rw [show primeraViolacionSpec (run :: resto) = primeraViolacionSpec resto by
            rw [primeraViolacionSpec, hneg]; rfl]
        exact ih

/-- Every extracted question is tagged with the line of a scanned
paragraph. -/
theorem extraerAux_linea_acotada (l : List Paragraph) :
    ∀ (i : Nat) (lq : Nat × String), lq ∈ extraerAux i l →
      i + 1 ≤ lq.1 ∧ lq.1 ≤ i + l.length := by
  induction l with
  | nil => intro i lq h; simp [extraerAux] at h
  | cons p resto ih =>
    intro i lq h
    simp only [extraerAux, List.mem_append, List.mem_map] at h
    rcases h with ⟨q, _, h⟩ | h
    · subst h
      simp only [List.length_cons]
      omega
    · have h2 := ih (i + 1) lq h
      simp only [List.length_cons]
      omega

/-- Every question-match error takes its line from an extracted question. -/
theorem comparar_linea_de_pregunta (pd : List (Nat × String)) (ref : List String)
    (e : ErrorRecord) (h : e ∈ comparar_preguntas pd ref) :
    ∃ q, (e.linea, q) ∈ pd := by
  simp only [comparar_preguntas, List.mem_filterMap] at h
  rcases h with ⟨lq, hmem, hop⟩
  split at hop
  · exact absurd hop (by simp)
  · injection hop with hop
    subst hop
    exact ⟨lq.2, hmem⟩

/-- Looking up the key just counted: the count goes up by one. -/
theorem buscar_agrega_mismo (k : String) : ∀ acc : List (String × Nat),
    buscar k (agrega acc k) = some ((buscar k acc).getD 0 + 1) := by
  intro acc
  induction acc with
  | nil => simp [agrega, buscar]
  | cons kn resto ih =>
    by_cases h : kn.1 = k
    · cases kn
      subst h
      simp [agrega, buscar]
    · cases kn with
      | mk k' n =>
        simp only at h
        simp [agrega, buscar, h, ih]

/-- Looking up a different key than the one counted: unchanged. -/
theorem buscar_agrega_otro (k k' : String) (hk : k' ≠ k) : ∀ acc : List (String × Nat),
    buscar k (agrega acc k') = buscar k acc := by
  intro acc
  induction acc with
  | nil => simp [agrega, buscar, hk]
  | cons kn resto ih =>
    cases kn with
    | mk a n =>
      by_cases ha : a = k'
      · subst ha
        simp [agrega, buscar, hk]
      · by_cases hak : a = k
        · subst hak
          simp [agrega, buscar, ha]
        · simp [agrega, buscar, ha, hak, ih]

/-- One error of the list increments exactly its kind in the running
summary dictionary. -/
theorem buscar_resumen_fold (k : String) : ∀ (l : List ErrorRecord) (acc : List (String × Nat)),
    buscar k (l.foldl (fun a e => agrega a e.tipo_error) acc) =
      (match buscar k acc with
       | some m => some (m + cuentaTipo l k)
       | none => if cuentaTipo l k = 0 then none else some (cuentaTipo l k)) := by
  intro l
  induction l with
  | nil =>
    intro acc
    cases h : buscar k acc <;> simp [cuentaTipo, h]
  | cons e resto ih =>
    intro acc
    rw [List.foldl_cons, ih (agrega acc e.tipo_error)]
    by_cases he : e.tipo_error = k
    · have hc : cuentaTipo (e :: resto) k = cuentaTipo resto k + 1 := by
        simp [cuentaTipo, List.filter_cons, he]
      rw [hc, he, buscar_agrega_mismo k acc]
      cases h : buscar k acc <;> simp [h] <;> omega
    · have hc : cuentaTipo (e :: resto) k = cuentaTipo resto k := by
        simp [cuentaTipo, List.filter_cons, he]
      rw [hc, buscar_agrega_otro k e.tipo_error he acc]

/-- Summary lookup is exactly the per-kind error count (absent iff zero). -/
theorem buscar_resumenDe (errores : List ErrorRecord) (k : String) :
    buscar k (resumenDe errores) =
      (if cuentaTipo errores k = 0 then none else some (cuentaTipo errores k)) := by
  have h := buscar_resumen_fold k errores []
  simpa [resumenDe, buscar] using h

/-- A key is absent from the association list iff lookup fails. -/
theorem buscar_none_iff (k : String) : ∀ l : List (String × Nat),
    buscar k l = none ↔ k ∉ l.map Prod.fst := by
  intro l
  induction l with
  | nil => simp [buscar]
  | cons kn resto ih =>
    cases kn with
    | mk a n =>
      by_cases ha : a = k
      · subst ha
        simp [buscar]
      · simp [buscar, ha, ih, Ne.symm ha]

/-- The per-kind count is non-zero iff an error of that kind occurs. -/
theorem cuentaTipo_ne_cero (errores : List ErrorRecord) (k : String) :
    cuentaTipo errores k ≠ 0 ↔ ∃ e ∈ errores, e.tipo_error = k := by
  rw [cuentaTipo, Ne, List.length_eq_zero, List.filter_eq_nil_iff]
  simp

/-! ### Claim theorems -/

/-- C1: the `resumen` of every analysis result equals the count of its
`errores` grouped by `tipo_error`: looking up any kind gives the number of
errors of that kind (absent iff zero), the key set is exactly the set of
kinds present in the errors, and recomputing the summary from the errors
(`resumenDe`) reproduces it exactly. -/
theorem resumen_es_conteo_de_errores (nombre : String) (doc : List Paragraph)
    (preguntas_ref : List String) (k : String) :
    (analizar_un_docx nombre doc preguntas_ref).resumen =
        resumenDe (analizar_un_docx nombre doc preguntas_ref).errores ∧
    buscar k (analizar_un_docx nombre doc preguntas_ref).resumen =
      (if cuentaTipo (analizar_un_docx nombre doc preguntas_ref).errores k = 0 then none
       else some (cuentaTipo (analizar_un_docx nombre doc preguntas_ref).errores k)) ∧
    (k ∈ (analizar_un_docx nombre doc preguntas_ref).resumen.map Prod.fst ↔
      ∃ e ∈ (analizar_un_docx nombre doc preguntas_ref).errores, e.tipo_error = k) := by
  refine ⟨rfl, buscar_resumenDe _ k, ?_⟩
  rw [← cuentaTipo_ne_cero (analizar_un_docx nombre doc preguntas_ref).errores k]
  constructor
  · intro hk hc
    have hnone : buscar k (analizar_un_docx nombre doc preguntas_ref).resumen = none := by
      rw [show (analizar_un_docx nombre doc preguntas_ref).resumen =
          resumenDe (erroresDe doc preguntas_ref) from rfl]
      rw [buscar_resumenDe (erroresDe doc preguntas_ref) k]
      exact if_pos hc
    exact (buscar_none_iff k _).mp hnone hk
  · intro hc
    by_contra hk
    have hnone := (buscar_none_iff k (analizar_un_docx nombre doc preguntas_ref).resumen).mpr hk
    rw [show (analizar_un_docx nombre doc preguntas_ref).resumen =
        resumenDe (erroresDe doc preguntas_ref) from rfl] at hnone
    rw [buscar_resumenDe (erroresDe doc preguntas_ref) k,
      if_neg (show ¬cuentaTipo (erroresDe doc preguntas_ref) k = 0 from hc)] at hnone
    exact absurd hnone (by simp)

/-- C2 counterexample: with reference set `["¿Cómo estás?"]` and the single
paragraph `"Él preguntó: ¿Cómo estás? Bien."`, the question extractor plus
question-match validator emit one `"Pregunta no coincide"` error, not zero:
the extractor extracts the maximal run `"Él preguntó: ¿Cómo estás?"`, which
is not in the reference set. -/
theorem pregunta_coincidente_igual_da_error :
    comparar_preguntas (extraer_preguntas_docx [⟨"Él preguntó: ¿Cómo estás? Bien.", []⟩])
        ["¿Cómo estás?"] =
      [⟨1, "Pregunta no coincide",
        "\x27Él preguntó: ¿Cómo estás?\x27 no está en la matriz de referencia"⟩] ∧
    comparar_preguntas (extraer_preguntas_docx [⟨"Él preguntó: ¿Cómo estás? Bien.", []⟩])
        ["¿Cómo estás?"] ≠ [] := by
  constructor
  · rfl
  · decide

/-- C2 (amended): the extractor returns the maximal `?`-terminated run, so
the paragraph `"Él preguntó: ¿Cómo estás? Bien."` yields the extracted
question `"Él preguntó: ¿Cómo estás?"`; against `["¿Cómo estás?"]` that is
exactly one `"Pregunta no coincide"` error referencing the full extracted
text (zero errors require the reference set to contain the full run), and a
paragraph that is exactly `"¿Qué hora es?"` yields exactly one such error
referencing that exact text. -/
theorem preguntas_maximales_comparadas :
    extraer_preguntas_docx [⟨"Él preguntó: ¿Cómo estás? Bien.", []⟩] =
      [(1, "Él preguntó: ¿Cómo estás?")] ∧
    comparar_preguntas [(1, "Él preguntó: ¿Cómo estás?")] ["¿Cómo estás?"] =
      [⟨1, "Pregunta no coincide",
        "\x27Él preguntó: ¿Cómo estás?\x27 no está en la matriz de referencia"⟩] ∧
    comparar_preguntas [(1, "Él preguntó: ¿Cómo estás?")] ["Él preguntó: ¿Cómo estás?"] = [] ∧
    comparar_preguntas (extraer_preguntas_docx [⟨"¿Qué hora es?", []⟩]) ["¿Cómo estás?"] =
      [⟨1, "Pregunta no coincide",
        "\x27¿Qué hora es?\x27 no está en la matriz de referencia"⟩] := by
  exact ⟨rfl, rfl, rfl, rfl⟩

/-- C3: evaluation at the failing input — a document whose only paragraph
is exactly `"ENTREVISTADO:"` yields TWO error records for line 1, the
expected `"Intervención vacía tras etiqueta"` and an additional
`"Etiqueta inválida"` from the forbidden-pattern detector, whose
case-insensitive pattern `\bEntrevistado[a-z]*\b` matches the valid label
itself. -/
theorem intervencion_vacia_tambien_marcada_invalida :
    (analizar_un_docx "doc.docx" [⟨"ENTREVISTADO:", []⟩] []).errores =
      [⟨1, "Intervención vacía tras etiqueta", "Debe ir junto al texto, sin salto de línea"⟩,
       ⟨1, "Etiqueta inválida",
        "Se encontró coincidencia con patrón: \\bEntrevistado[a-z]*\\b"⟩] := by
  rfl

/-- C4 counterexample: `"ENTREVISTADA: hola"` contains the valid speaker
label `ENTREVISTADA`, yet the forbidden-pattern detector emits no error for
it — neither literal `Entrevistado` nor `Entrevistador` matches the final
`A` case-insensitively, so not every correctly labeled paragraph is
flagged. -/
theorem entrevistada_no_es_marcada :
    "ENTREVISTADA" ∈ ETIQUETAS_VALIDAS ∧
    subcadenaS "ENTREVISTADA" "ENTREVISTADA: hola" = true ∧
    detectar_etiquetas_invalidas [⟨"ENTREVISTADA: hola", []⟩] = [] := by
  refine ⟨by decide, by decide, rfl⟩

/-- C5: evaluation at the failing inputs — the empty-intervention regex
`^(ENTREVISTAD[OA]|ENTREVISTADOR[OA]):\s*$` (main.py line 155) expands to
the literals ENTREVISTADO, ENTREVISTADA, ENTREVISTADORO, ENTREVISTADORA:
the valid label paragraph `"ENTREVISTADOR:"` is NOT flagged, while the
non-label `"ENTREVISTADORO:"` IS flagged. -/
theorem intervencion_vacia_regex_desviada :
    validar_intervencion_vacia [⟨"ENTREVISTADOR:", []⟩] = [] ∧
    validar_intervencion_vacia [⟨"ENTREVISTADORO:", []⟩] =
      [⟨1, "Intervención vacía tras etiqueta", "Debe ir junto al texto, sin salto de línea"⟩] ∧
    "ENTREVISTADOR" ∈ ETIQUETAS_VALIDAS ∧ "ENTREVISTADORO" ∉ ETIQUETAS_VALIDAS := by
  refine ⟨rfl, rfl, by decide, by decide⟩

/-- C6 counterexample: a run whose font size is set to 0 points has a size
set and different from 12, yet the validator reports nothing — the Python
truthiness test `if tam and tam != 12` treats a 0 size as unset. -/
theorem tamano_cero_no_reportado :
    (some (0 : ℚ) ≠ (none : Option ℚ)) ∧ (0 : ℚ) ≠ 12 ∧
    validar_fuente_tamano [⟨"x", [⟨"t", false, none, some 0⟩]⟩] = [] := by
  refine ⟨by decide, by decide, rfl⟩

/-- C10: document analysis is deterministic — equal file name, equal parsed
document bytes (hence equal parsed document) and equal reference question
list give identical `AnalysisResult`s, same errors in the same order and
the same summary. -/
theorem analisis_es_determinista (n₁ n₂ : String) (d₁ d₂ : List Paragraph)
    (r₁ r₂ : List String) (hn : n₁ = n₂) (hd : d₁ = d₂) (hr : r₁ = r₂) :
    analizar_un_docx n₁ d₁ r₁ = analizar_un_docx n₂ d₂ r₂ := by
  subst hn; subst hd; subst hr; rfl

/-- C10 witness: the determinism theorem applied at a concrete input. -/
theorem analisis_es_determinista_testigo :
    "a.docx" = "a.docx" ∧
    analizar_un_docx "a.docx" [⟨"Hola", []⟩] ["¿Q?"] =
      analizar_un_docx "a.docx" [⟨"Hola", []⟩] ["¿Q?"] :=
  ⟨rfl, analisis_es_determinista "a.docx" "a.docx" [⟨"Hola", []⟩] [⟨"Hola", []⟩]
    ["¿Q?"] ["¿Q?"] rfl rfl rfl⟩

/-- C9: every error record in an analysis result has a line number between
1 and the number of paragraphs of the parsed document — it names a
paragraph that exists in the source document. -/
theorem linea_de_error_existe (nombre : String) (doc : List Paragraph)
    (preguntas_ref : List String) (e : ErrorRecord)
    (h : e ∈ (analizar_un_docx nombre doc preguntas_ref).errores) :
    1 ≤ e.linea ∧ e.linea ≤ doc.length := by
  have h' : e ∈ erroresDe doc preguntas_ref := h
  simp only [erroresDe, List.mem_append] at h'
  rcases h' with ((((h' | h') | h') | h') | h') | h'
  · rcases comparar_linea_de_pregunta _ _ _ h' with ⟨q, hq⟩
    have := extraerAux_linea_acotada doc 0 (e.linea, q) hq
    simpa using this
  all_goals
    have := porParrafo_linea_acotada _ doc 0 e h'
    simpa using this

/-- C9 witness: the bound applied to the error produced by the document
whose single paragraph is `"ENTREVISTADO:"`. -/
theorem linea_de_error_existe_testigo :
    (⟨1, "Intervención vacía tras etiqueta", "Debe ir junto al texto, sin salto de línea"⟩ :
        ErrorRecord) ∈
      (analizar_un_docx "d.docx" [⟨"ENTREVISTADO:", []⟩] []).errores ∧
    1 ≤ (1 : Nat) ∧ (1 : Nat) ≤ ([⟨"ENTREVISTADO:", []⟩] : List Paragraph).length :=
  ⟨by decide,
   linea_de_error_existe "d.docx" [⟨"ENTREVISTADO:", []⟩] []
     ⟨1, "Intervención vacía tras etiqueta", "Debe ir junto al texto, sin salto de línea"⟩
     (by decide)⟩

/-- C7: after filtering the uploaded files to `.docx` names
(case-insensitively), a batch in which more than `MAX_DOCX = 10` files
remain is truncated to the first 10 in original input order, and exactly
those 10 are analyzed, producing the result entries in input order. -/
theorem lote_trunca_a_diez (documentos : List ArchivoSubido) (nombreExcel : String)
    (datos : List String)
    (h10 : MAX_DOCX < (documentos.filter esNombreDocx).length)
    (hx : terminaEn (minusculas nombreExcel) ".xlsx" = true) :
    analyze_endpoint documentos nombreExcel datos =
      RespuestaAnalyze.exito true MAX_DOCX
        (((documentos.filter esNombreDocx).take MAX_DOCX).map
          (fun f => analizar_un_docx f.filename f.doc datos)) := by
  have hne : ¬(documentos.filter esNombreDocx).length = 0 := by
    intro h0
    rw [h0] at h10
    exact absurd h10 (by decide)
  simp only [analyze_endpoint]
  rw [if_neg hne, if_pos h10, hx]
  simp only [Bool.not_true, Bool.false_eq_true, if_false]
  have hlen : (((documentos.filter esNombreDocx).take MAX_DOCX).map
      (fun f => analizar_un_docx f.filename f.doc datos)).length = MAX_DOCX := by
    rw [List.length_map, List.length_take]
    omega
  rw [hlen]

/-- C7 witness: twelve valid documents yield exactly the first ten results,
in input order. -/
theorem lote_trunca_a_diez_testigo :
    MAX_DOCX < (([⟨"a1.docx", []⟩, ⟨"a2.docx", []⟩, ⟨"a3.docx", []⟩, ⟨"a4.docx", []⟩,
      ⟨"a5.docx", []⟩, ⟨"a6.docx", []⟩, ⟨"a7.docx", []⟩, ⟨"a8.docx", []⟩, ⟨"a9.docx", []⟩,
      ⟨"a10.docx", []⟩, ⟨"a11.docx", []⟩, ⟨"a12.docx", []⟩] :
        List ArchivoSubido).filter esNombreDocx).length ∧
    terminaEn (minusculas "ref.xlsx") ".xlsx" = true ∧
    analyze_endpoint [⟨"a1.docx", []⟩, ⟨"a2.docx", []⟩, ⟨"a3.docx", []⟩, ⟨"a4.docx", []⟩,
        ⟨"a5.docx", []⟩, ⟨"a6.docx", []⟩, ⟨"a7.docx", []⟩, ⟨"a8.docx", []⟩, ⟨"a9.docx", []⟩,
        ⟨"a10.docx", []⟩, ⟨"a11.docx", []⟩, ⟨"a12.docx", []⟩] "ref.xlsx" ["¿Q?"] =
      RespuestaAnalyze.exito true MAX_DOCX
        ((([⟨"a1.docx", []⟩, ⟨"a2.docx", []⟩, ⟨"a3.docx", []⟩, ⟨"a4.docx", []⟩,
          ⟨"a5.docx", []⟩, ⟨"a6.docx", []⟩, ⟨"a7.docx", []⟩, ⟨"a8.docx", []⟩, ⟨"a9.docx", []⟩,
          ⟨"a10.docx", []⟩, ⟨"a11.docx", []⟩, ⟨"a12.docx", []⟩] :
            List ArchivoSubido).filter esNombreDocx).take MAX_DOCX |>.map
          (fun f => analizar_un_docx f.filename f.doc ["¿Q?"])) :=
  ⟨by decide, by decide,
   lote_trunca_a_diez [⟨"a1.docx", []⟩, ⟨"a2.docx", []⟩, ⟨"a3.docx", []⟩, ⟨"a4.docx", []⟩,
     ⟨"a5.docx", []⟩, ⟨"a6.docx", []⟩, ⟨"a7.docx", []⟩, ⟨"a8.docx", []⟩, ⟨"a9.docx", []⟩,
     ⟨"a10.docx", []⟩, ⟨"a11.docx", []⟩, ⟨"a12.docx", []⟩] "ref.xlsx" ["¿Q?"]
     (by decide) (by decide)⟩

/-- C8: a batch whose files include no `.docx` name is rejected with status
400 and the no-valid-docx message, and the outcome is independent of
whatever the reference spreadsheet would parse to — the embedded form of
"the spreadsheet is never read"; likewise, when `.docx` files are present
but the reference file name does not end in `.xlsx`, the batch is rejected
with the xlsx message before any spreadsheet parsing. -/
theorem rechazo_antes_de_leer_excel (documentos : List ArchivoSubido)
    (nombreExcel : String) (datos datos' : List String) :
    ((documentos.filter esNombreDocx).length = 0 →
      analyze_endpoint documentos nombreExcel datos =
        RespuestaAnalyze.rechazo 400 false "Debes adjuntar al menos un .docx" ∧
      analyze_endpoint documentos nombreExcel datos =
        analyze_endpoint documentos nombreExcel datos') ∧
    ((documentos.filter esNombreDocx).length ≠ 0 →
      terminaEn (minusculas nombreExcel) ".xlsx" = false →
      analyze_endpoint documentos nombreExcel datos =
        RespuestaAnalyze.rechazo 400 false "Debes adjuntar un .xlsx de preguntas" ∧
      analyze_endpoint documentos nombreExcel datos =
        analyze_endpoint documentos nombreExcel datos') := by
  constructor
  · intro h0
    have hall : ∀ d : List String, analyze_endpoint documentos nombreExcel d =
        RespuestaAnalyze.rechazo 400 false "Debes adjuntar al menos un .docx" := by
      intro d
      simp only [analyze_endpoint]
      rw [if_pos h0]
    exact ⟨hall datos, (hall datos).trans (hall datos').symm⟩
  · intro hne hx
    have hall : ∀ d : List String, analyze_endpoint documentos nombreExcel d =
        RespuestaAnalyze.rechazo 400 false "Debes adjuntar un .xlsx de preguntas" := by
      intro d
      simp only [analyze_endpoint]
      rw [if_neg hne, hx]
      simp
    exact ⟨hall datos, (hall datos).trans (hall datos').symm⟩

/-- C8 witness: both rejection branches applied at concrete inputs, with
two different parses of the spreadsheet giving the same outcome. -/
theorem rechazo_antes_de_leer_excel_testigo :
    (([⟨"a.txt", []⟩] : List ArchivoSubido).filter esNombreDocx).length = 0 ∧
    analyze_endpoint [⟨"a.txt", []⟩] "ref.xlsx" ["q1"] =
      RespuestaAnalyze.rechazo 400 false "Debes adjuntar al menos un .docx" ∧
    (([⟨"b.docx", []⟩] : List ArchivoSubido).filter esNombreDocx).length ≠ 0 ∧
    terminaEn (minusculas "ref.xls") ".xlsx" = false ∧
    analyze_endpoint [⟨"b.docx", []⟩] "ref.xls" ["q1"] =
      RespuestaAnalyze.rechazo 400 false "Debes adjuntar un .xlsx de preguntas" :=
  ⟨by decide,
   ((rechazo_antes_de_leer_excel [⟨"a.txt", []⟩] "ref.xlsx" ["q1"] ["q2"]).1 (by decide)).1,
   by decide, by decide,
   ((rechazo_antes_de_leer_excel [⟨"b.docx", []⟩] "ref.xls" ["q1"] ["q2"]).2
     (by decide) (by decide)).1⟩

/-- C6 (amended): per paragraph the font/size validator reports at most one
error, namely for the first run whose font name is set, non-empty and not
"arial" case-insensitively ("Fuente incorrecta"), or else whose size is
set, non-zero and different from 12 points ("Tamaño incorrecto"); the
font check of a run precedes its size check, later runs of the paragraph
are not checked, and checking resumes at the next paragraph. -/
theorem fuente_tamano_primera_violacion (doc : List Paragraph) (j : Nat) (p : Paragraph)
    (hp : doc.get? j = some p) :
    ((validar_fuente_tamano doc).filter (fun e => decide (e.linea = j + 1))) =
      (match primeraViolacionSpec p.runs with
       | some td => [⟨j + 1, td.1, td.2⟩]
       | none => []) ∧
    ((validar_fuente_tamano doc).filter (fun e => decide (e.linea = j + 1))).length ≤ 1 := by
  have h := porParrafo_filtra_linea revisaFuente doc 0 j p hp
  simp only [Nat.zero_add] at h
  have h2 : (validar_fuente_tamano doc).filter (fun e => decide (e.linea = j + 1)) =
      (match primeraViolacionSpec p.runs with
       | some td => [(⟨j + 1, td.1, td.2⟩ : ErrorRecord)]
       | none => []) := by
    rw [show validar_fuente_tamano doc = porParrafo revisaFuente 0 doc from rfl, h]
    rw [show revisaFuente p = primeraViolacionSpec p.runs from revisarRuns_primera p.runs]
  refine ⟨h2, ?_⟩
  rw [h2]
  cases primeraViolacionSpec p.runs <;> simp

/-- C6 witness: a paragraph whose first run uses Times New Roman and whose
second run uses size 14 reports exactly the font error of the first run. -/
theorem fuente_tamano_primera_violacion_testigo :
    ([⟨"x", [⟨"t", false, some "Times New Roman", none⟩, ⟨"u", false, none, some 14⟩]⟩] :
        List Paragraph).get? 0 =
      some ⟨"x", [⟨"t", false, some "Times New Roman", none⟩, ⟨"u", false, none, some 14⟩]⟩ ∧
    ((validar_fuente_tamano
        [⟨"x", [⟨"t", false, some "Times New Roman", none⟩, ⟨"u", false, none, some 14⟩]⟩]).filter
      (fun e => decide (e.linea = 0 + 1))) =
      [⟨1, "Fuente incorrecta", "\x27Times New Roman\x27 en vez de Arial"⟩] ∧
    ((validar_fuente_tamano
        [⟨"x", [⟨"t", false, some "Times New Roman", none⟩, ⟨"u", false, none, some 14⟩]⟩]).filter
      (fun e => decide (e.linea = 0 + 1))).length ≤ 1 :=
  ⟨rfl,
   (fuente_tamano_primera_violacion
     [⟨"x", [⟨"t", false, some "Times New Roman", none⟩, ⟨"u", false, none, some 14⟩]⟩] 0
     ⟨"x", [⟨"t", false, some "Times New Roman", none⟩, ⟨"u", false, none, some 14⟩]⟩ rfl).1,
   (fuente_tamano_primera_violacion
     [⟨"x", [⟨"t", false, some "Times New Roman", none⟩, ⟨"u", false, none, some 14⟩]⟩] 0
     ⟨"x", [⟨"t", false, some "Times New Roman", none⟩, ⟨"u", false, none, some 14⟩]⟩ rfl).2⟩

/-- The greedy letter class steps over an ASCII letter. -/
theorem saltaLetras_letra (c : Char) (hc : esLetraAscii c = true) (r : List Char) :
    saltaLetras (c :: r) = saltaLetras r := by
  simp [saltaLetras, hc]

/-- C4 (amended): for every paragraph whose trimmed text starts with one of
the valid labels ENTREVISTADOR, ENTREVISTADORA or ENTREVISTADO followed by
a colon, the forbidden-pattern detector emits exactly one
`"Etiqueta inválida"` error for that paragraph — the case-insensitive
patterns `\bEntrevistador[a-z]*\b` / `\bEntrevistado[a-z]*\b` match those
valid uppercase labels themselves.  The fourth label, ENTREVISTADA, is not
matched (see its counterexample), so not EVERY correctly labeled paragraph
is flagged. -/
theorem etiqueta_valida_marcada_por_patrones (doc : List Paragraph) (j : Nat) (p : Paragraph)
    (hp : doc.get? j = some p)
    (hL : ∃ L r, L ∈ ["ENTREVISTADOR", "ENTREVISTADORA", "ENTREVISTADO"] ∧
      (recortaS p.text).toList = (L ++ ":").toList ++ r) :
    ((detectar_etiquetas_invalidas doc).filter (fun e => decide (e.linea = j + 1))).length
      = 1 := by
  have hmatch : ∃ pr ∈ ETIQUETAS_INVALIDAS_PATRONES,
      buscaPatron pr.1 none (recortaS p.text).toList = true := by
    obtain ⟨L, r, hLmem, ht⟩ := hL
    simp only [List.mem_cons, List.not_mem_nil, or_false] at hLmem
    rcases hLmem with rfl | rfl | rfl
    · refine ⟨(.palabraStar "Entrevistador", "\\bEntrevistador[a-z]*\\b"), by decide, ?_⟩
      have hsplit : ("ENTREVISTADOR" ++ ":" : String).toList ++ r =
          "ENTREVISTADOR".toList ++ (':' :: r) := by
        rw [show ("ENTREVISTADOR" ++ ":" : String).toList =
          "ENTREVISTADOR".toList ++ [':'] from by decide]
        rw [List.append_assoc]
        rfl
      rw [ht, hsplit]
      apply buscaPatron_aqui
      · rfl
      · simp only [coincideEn]
        rw [consumeCI_exacto "Entrevistador".toList "ENTREVISTADOR".toList (by decide)
          (':' :: r)]
        show fronteraDespues (saltaLetras (':' :: r)) = true
        rw [saltaLetras_dos_puntos]
        rw [show fronteraDespues (':' :: r) = !esCaracterPalabra ':' from rfl]
        decide
    · refine ⟨(.palabraStar "Entrevistador", "\\bEntrevistador[a-z]*\\b"), by decide, ?_⟩
      have hsplit : ("ENTREVISTADORA" ++ ":" : String).toList ++ r =
          "ENTREVISTADOR".toList ++ ('A' :: ':' :: r) := by
        rw [show ("ENTREVISTADORA" ++ ":" : String).toList =
          "ENTREVISTADOR".toList ++ ['A', ':'] from by decide]
        rw [List.append_assoc]
        rfl
      rw [ht, hsplit]
      apply buscaPatron_aqui
      · rfl
      · simp only [coincideEn]
        rw [consumeCI_exacto "Entrevistador".toList "ENTREVISTADOR".toList (by decide)
          ('A' :: ':' :: r)]
        show fronteraDespues (saltaLetras ('A' :: ':' :: r)) = true
        rw [saltaLetras_letra 'A' (by decide), saltaLetras_dos_puntos]
        rw [show fronteraDespues (':' :: r) = !esCaracterPalabra ':' from rfl]
        decide
    · refine ⟨(.palabraStar "Entrevistado", "\\bEntrevistado[a-z]*\\b"), by decide, ?_⟩
      have hsplit : ("ENTREVISTADO" ++ ":" : String).toList ++ r =
          "ENTREVISTADO".toList ++ (':' :: r) := by
        rw [show ("ENTREVISTADO" ++ ":" : String).toList =
          "ENTREVISTADO".toList ++ [':'] from by decide]
        rw [List.append_assoc]
        rfl
      rw [ht, hsplit]
      apply buscaPatron_aqui
      · rfl
      · simp only [coincideEn]
        rw [consumeCI_exacto "Entrevistado".toList "ENTREVISTADO".toList (by decide)
          (':' :: r)]
        show fronteraDespues (saltaLetras (':' :: r)) = true
        rw [saltaLetras_dos_puntos]
        rw [show fronteraDespues (':' :: r) = !esCaracterPalabra ':' from rfl]
        decide
  obtain ⟨pr, hprmem, hpr⟩ := hmatch
  have hsome : (ETIQUETAS_INVALIDAS_PATRONES.find?
      (fun pr => buscaPatron pr.1 none (recortaS p.text).toList)).isSome = true :=
    find?_coge_alguno _ _ pr hprmem hpr
  rcases Option.isSome_iff_exists.mp hsome with ⟨pr', hpr'⟩
  have hrev : revisaPatrones p = some ("Etiqueta inválida",
      "Se encontró coincidencia con patrón: " ++ pr'.2) := by
    unfold revisaPatrones
    rw [hpr']
  have h := porParrafo_filtra_linea revisaPatrones doc 0 j p hp
  simp only [Nat.zero_add] at h
  rw [show detectar_etiquetas_invalidas doc = porParrafo revisaPatrones 0 doc from rfl, h, hrev]
  rfl

/-- C4 witness: the amended theorem applied to a one-paragraph document
whose paragraph is correctly labeled `"ENTREVISTADO: Hola"`. -/
theorem etiqueta_valida_marcada_por_patrones_testigo :
    ([⟨"ENTREVISTADO: Hola", []⟩] : List Paragraph).get? 0 =
      some ⟨"ENTREVISTADO: Hola", []⟩ ∧
    (∃ L r, L ∈ ["ENTREVISTADOR", "ENTREVISTADORA", "ENTREVISTADO"] ∧
      (recortaS (Paragraph.mk "ENTREVISTADO: Hola" []).text).toList = (L ++ ":").toList ++ r) ∧
    ((detectar_etiquetas_invalidas [⟨"ENTREVISTADO: Hola", []⟩]).filter
      (fun e => decide (e.linea = 0 + 1))).length = 1 :=
  ⟨rfl, ⟨"ENTREVISTADO", " Hola".toList, by decide, by decide⟩,
   etiqueta_valida_marcada_por_patrones [⟨"ENTREVISTADO: Hola", []⟩] 0
     ⟨"ENTREVISTADO: Hola", []⟩ rfl ⟨"ENTREVISTADO", " Hola".toList, by decide, by decide⟩⟩

end Transcripciones
